import Mathlib

/-!
Verification of the `ecom` repository.

The repository has two parts:
* `src/Python/ecommerce.py` — an object-oriented e-commerce checkout demo
  (products, orders, discount strategies, shipping services, an order
  service computing totals);
* a Selenium page-object UI test suite (`src/project/...`) with page objects
  (`LoginPage`, `AddCustomerPage`, `CategoryPage`, `ProductPage`), a CSV
  reading utility (`CSVUtils.read_data` built on `csv.DictReader`), and
  pytest scenarios.

This file gives a shallow embedding of both parts and proves/refutes the
stated properties.  Python `float` money amounts are embedded as exact
rationals (`ℚ`); Python's `round(x, 2)` (round-half-to-even on the numeric
value) is embedded as `round2` below.  Selenium primitives are embedded by
their documented semantics: a `WebDriverWait(driver, 10).until(cond)` call
succeeds iff the condition becomes true within the bounded wait (abstracted
as a boolean field of the page environment) and raises `TimeoutException`
otherwise; `driver.find_element(loc)` succeeds iff an element for `loc` is
present and raises `NoSuchElementException` otherwise.
-/

namespace EcomUtil

/-- `Except.isOk`-style discriminator for fallible results. -/
def isOkE {ε α : Type} : Except ε α → Bool
  | .ok _ => true
  | .error _ => false

/-- Does `needle` occur at the head of `hay`? (character-list version). -/
def startsWithL : List Char → List Char → Bool
  | [], _ => true
  | _ :: _, [] => false
  | a :: as, b :: bs => a == b && startsWithL as bs

/-- Does `needle` occur anywhere inside `hay`? (character-list version). -/
def occursIn (needle : List Char) : List Char → Bool
  | [] => needle.isEmpty
  | c :: rest => startsWithL needle (c :: rest) || occursIn needle rest

/-- Python's `needle in hay` substring test on strings. -/
def containsSub (needle hay : String) : Bool :=
  occursIn needle.data hay.data

/-- ASCII model of Python's `str.lower`. -/
def pyLower (s : String) : String :=
  ⟨s.data.map Char.toLower⟩

end EcomUtil

namespace Ecom

/-- Round-half-to-even on a rational, Python's `round` on exact values. -/
def roundHalfEven (x : ℚ) : ℤ :=
  let f := ⌊x⌋
  if x - f < 1/2 then f
  else if 1/2 < x - f then f + 1
  else if f % 2 = 0 then f else f + 1

/-- Python's `round(x, 2)` on the exact rational value `x`. -/
def round2 (x : ℚ) : ℚ :=
  (roundHalfEven (x * 100) : ℚ) / 100

theorem roundHalfEven_intCast (m : ℤ) : roundHalfEven (m : ℚ) = m := by
  unfold roundHalfEven
  simp [Int.floor_intCast]

theorem round2_intCast_div (m : ℤ) : round2 ((m : ℚ) / 100) = (m : ℚ) / 100 := by
  unfold round2
  rw [div_mul_cancel₀ (m : ℚ) (by norm_num : (100 : ℚ) ≠ 0), roundHalfEven_intCast]

/-- `x` is a fixed point of `round2` exactly when it is a whole number of
hundredths. -/
theorem round2_fix_iff (x : ℚ) : round2 x = x ↔ ∃ m : ℤ, x = (m : ℚ) / 100 := by
  constructor
  · intro h
    exact ⟨roundHalfEven (x * 100), h.symm⟩
  · rintro ⟨m, rfl⟩
    exact round2_intCast_div m

theorem roundHalfEven_nonneg {x : ℚ} (hx : 0 ≤ x) : 0 ≤ roundHalfEven x := by
  have hf : (0 : ℤ) ≤ ⌊x⌋ := Int.floor_nonneg.mpr hx
  unfold roundHalfEven
  dsimp only
  split
  · exact hf
  · split
    · omega
    · split
      · exact hf
      · omega

theorem round2_nonneg {x : ℚ} (hx : 0 ≤ x) : 0 ≤ round2 x := by
  unfold round2
  have : (0 : ℤ) ≤ roundHalfEven (x * 100) :=
    roundHalfEven_nonneg (by positivity)
  positivity

theorem round2_fix_mul_int {x : ℚ} (h : round2 x = x) (q : ℤ) :
    round2 (x * q) = x * q := by
  obtain ⟨m, rfl⟩ := (round2_fix_iff x).mp h
  have : (m : ℚ) / 100 * q = ((m * q : ℤ) : ℚ) / 100 := by push_cast; ring
  rw [this]
  exact round2_intCast_div _

theorem round2_fix_add {x y : ℚ} (hx : round2 x = x) (hy : round2 y = y) :
    round2 (x + y) = x + y := by
  obtain ⟨m, rfl⟩ := (round2_fix_iff x).mp hx
  obtain ⟨n, rfl⟩ := (round2_fix_iff y).mp hy
  have : (m : ℚ) / 100 + n / 100 = ((m + n : ℤ) : ℚ) / 100 := by push_cast; ring
  rw [this]
  exact round2_intCast_div _

theorem round2_fix_sum {l : List ℚ} (h : ∀ x ∈ l, round2 x = x) :
    round2 l.sum = l.sum := by
  induction l with
  | nil =>
    simpa using (round2_fix_iff 0).mpr ⟨0, by norm_num⟩
  | cons a t ih =>
    rw [List.sum_cons]
    exact round2_fix_add (h a (List.mem_cons_self a t))
      (ih fun x hx => h x (List.mem_cons_of_mem a hx))

/-- Applying `round2` twice equals applying it once. -/
theorem round2_round2 (x : ℚ) : round2 (round2 x) = round2 x :=
  (round2_fix_iff _).mpr ⟨roundHalfEven (x * 100), rfl⟩

/-- Python `ValueError` (the only exception `ecommerce.py` raises itself). -/
inductive PyError : Type
  | valueError (msg : String)
  deriving Repr, DecidableEq

/-- `Address` dataclass of `ecommerce.py`. -/
structure Address where
  line1 : String
  city : String
  country : String
  postal_code : String
  deriving Repr, DecidableEq

/-- `Customer` dataclass of `ecommerce.py`. -/
structure Customer where
  customer_id : String
  name : String
  email : String
  address : Address
  deriving Repr, DecidableEq

/-- The concrete `Product` subclasses: `PhysicalProduct` carries `weight_kg`,
`DigitalProduct` carries `file_size_mb`. -/
inductive ProductKind : Type
  | physical (weight_kg : ℚ)
  | digital (file_size_mb : ℚ)
  deriving Repr, DecidableEq

/-- A constructed `Product` object: `_sku`, `name`, `_price` plus the
subclass data. -/
structure Product where
  sku : String
  name : String
  price : ℚ
  kind : ProductKind
  deriving Repr, DecidableEq

/-- ASCII model of Python's `str.isalnum`: non-empty and every character
alphanumeric. -/
def pyIsAlnum (s : String) : Bool :=
  !s.isEmpty && s.data.all Char.isAlphanum

/-- ASCII model of Python's `str.isupper`: at least one cased (= letter)
character and no lowercase character. -/
def pyIsUpper (s : String) : Bool :=
  s.data.any Char.isAlpha && s.data.all (fun c => !c.isLower)

/-- `Product.validate_sku`:
`sku.isalnum() and sku.isupper() and (6 <= len(sku) <= 12)`. -/
def validate_sku (sku : String) : Bool :=
  pyIsAlnum sku && pyIsUpper sku && (6 ≤ sku.length && sku.length ≤ 12)

/-- The `price` property setter: rejects negative values, otherwise stores
`round(float(v), 2)`.  In this functional embedding "leaving the price
unchanged on error" is the fact that `.error` carries no new product. -/
def Product.set_price (p : Product) (v : ℚ) : Except PyError Product :=
  if v < 0 then .error (.valueError "Price cannot be negative.")
  else .ok { p with price := round2 v }

/-- `Product.__init__`: validates the SKU, then assigns `self.price = price`
through the `price` setter (inlined here). -/
def Product.make (sku name : String) (price : ℚ) (kind : ProductKind) :
    Except PyError Product :=
  if ¬validate_sku sku then
    .error (.valueError "Invalid SKU format. Must be uppercase alphanumeric (6–12 chars).")
  else if price < 0 then .error (.valueError "Price cannot be negative.")
  else .ok { sku := sku, name := name, price := round2 price, kind := kind }

/-- `shipping_weight()`: the physical product's `weight_kg`, `0.0` for
digital products. -/
def Product.shipping_weight (p : Product) : ℚ :=
  match p.kind with
  | .physical w => w
  | .digital _ => 0

/-- `OrderItem` dataclass: a product and an integer quantity. -/
structure OrderItem where
  product : Product
  quantity : ℤ
  deriving Repr, DecidableEq

/-- `OrderItem.line_total`: `round(self.product.price * self.quantity, 2)`. -/
def OrderItem.line_total (i : OrderItem) : ℚ :=
  round2 (i.product.price * i.quantity)

/-- `Order` dataclass. -/
structure Order where
  order_id : String
  customer : Customer
  items : List OrderItem
  coupon_code : Option String := none
  deriving Repr, DecidableEq

/-- `Order.subtotal`: `round(sum(i.line_total() for i in self.items), 2)`. -/
def Order.subtotal (o : Order) : ℚ :=
  round2 (o.items.map OrderItem.line_total).sum

/-- `Order.total_items`: `sum(i.quantity for i in self.items)`. -/
def Order.total_items (o : Order) : ℤ :=
  (o.items.map OrderItem.quantity).sum

/-- The three `DiscountStrategy` subclasses, each storing its (already
normalised) constructor argument. -/
inductive DiscountStrategy : Type
  | noDiscount
  | percentage (percent : ℚ)
  | fixedAmount (amount_off : ℚ)
  deriving Repr, DecidableEq

/-- `PercentageDiscount.__init__`:
`self.percent = max(0.0, min(100.0, float(percent)))`. -/
def PercentageDiscount (percent : ℚ) : DiscountStrategy :=
  .percentage (max 0 (min 100 percent))

/-- `FixedAmountDiscount.__init__`: `self.amount_off = max(0.0, float(amount_off))`. -/
def FixedAmountDiscount (amount_off : ℚ) : DiscountStrategy :=
  .fixedAmount (max 0 amount_off)

/-- The `apply` methods of the three discount strategies. -/
def DiscountStrategy.apply : DiscountStrategy → ℚ → ℚ
  | .noDiscount, amount => round2 amount
  | .percentage p, amount => round2 (amount * (1 - p / 100))
  | .fixedAmount a, amount => round2 (max 0 (amount - a))

/-- The two `ShippingService` subclasses. -/
inductive ShippingService : Type
  | standard
  | express
  deriving Repr, DecidableEq

/-- The weight accumulation loop shared by both `cost` methods:
`total_weight += item.product.shipping_weight() * item.quantity`
(every product class defines `shipping_weight`, so the `getattr` default
never fires). -/
def Order.total_weight (o : Order) : ℚ :=
  (o.items.map (fun i => i.product.shipping_weight * (i.quantity : ℚ))).sum

/-- The `cost` methods: `round(50 + 30*w, 2)` for standard,
`round(120 + 50*w, 2)` for express. -/
def ShippingService.cost : ShippingService → Order → ℚ
  | .standard, o => round2 (50 + 30 * o.total_weight)
  | .express, o => round2 (120 + 50 * o.total_weight)

/-- The `label` methods. -/
def ShippingService.label : ShippingService → String
  | .standard => "Standard"
  | .express => "Express"

/-- The two `PaymentGateway` subclasses. -/
inductive PaymentGateway : Type
  | stripe
  | cashOnDelivery
  deriving Repr, DecidableEq

/-- `OrderService.__init__`'s stored dependencies. -/
structure OrderService where
  payment_gateway : PaymentGateway
  shipping_service : ShippingService
  discount_strategy : DiscountStrategy
  currency_symbol : String := "₹"

/-- The dict returned by `OrderService.compute_total` — exactly the five
keys `subtotal`, `discounted_subtotal`, `shipping_cost`, `grand_total`,
`shipping_method`. -/
structure ComputeTotalResult where
  subtotal : ℚ
  discounted_subtotal : ℚ
  shipping_cost : ℚ
  grand_total : ℚ
  shipping_method : String
  deriving Repr, DecidableEq

/-- `OrderService.compute_total`. -/
def OrderService.compute_total (s : OrderService) (o : Order) : ComputeTotalResult :=
  let subtotal := o.subtotal
  let discounted := s.discount_strategy.apply subtotal
  let shipping := s.shipping_service.cost o
  { subtotal := subtotal
    discounted_subtotal := discounted
    shipping_cost := shipping
    grand_total := round2 (discounted + shipping)
    shipping_method := s.shipping_service.label }

/-- C1: for every order, `Order.subtotal()` equals the sum over the order's
items of (unit price × quantity), rounded to 2 decimals (given that each
item's stored price is a 2-decimal value, as the `price` setter guarantees);
and each `OrderItem.line_total()` equals `round(product.price * quantity, 2)`,
the subtotal being the rounding of their accumulation. -/
theorem C1_order_subtotal (o : Order) (i : OrderItem)
    (h : ∀ j ∈ o.items, round2 j.product.price = j.product.price) :
    o.subtotal = round2 ((o.items.map (fun j => j.product.price * (j.quantity : ℚ))).sum)
    ∧ i.line_total = round2 (i.product.price * (i.quantity : ℚ))
    ∧ o.subtotal = round2 ((o.items.map OrderItem.line_total).sum) := by
  refine ⟨?_, rfl, rfl⟩
  unfold Order.subtotal
  congr 1
  congr 1
  refine List.map_congr_left fun j hj => ?_
  unfold OrderItem.line_total
  exact round2_fix_mul_int (h j hj) j.quantity

theorem C1_order_subtotal_witness :
    (∀ j ∈ [OrderItem.mk ⟨"MOUSE01", "Ergo Mouse", round2 1299, .physical (2/25)⟩ 2],
        round2 j.product.price = j.product.price)
    ∧ (Order.mk "ORD1" ⟨"c1", "A", "a@b.c", ⟨"l", "c", "in", "5"⟩⟩
        [OrderItem.mk ⟨"MOUSE01", "Ergo Mouse", round2 1299, .physical (2/25)⟩ 2] none).subtotal
        = round2 (([OrderItem.mk ⟨"MOUSE01", "Ergo Mouse", round2 1299, .physical (2/25)⟩ 2].map
            (fun j => j.product.price * (j.quantity : ℚ))).sum) :=
  ⟨List.forall_mem_singleton.mpr (round2_round2 1299),
   (C1_order_subtotal
      (Order.mk "ORD1" ⟨"c1", "A", "a@b.c", ⟨"l", "c", "in", "5"⟩⟩
        [OrderItem.mk ⟨"MOUSE01", "Ergo Mouse", round2 1299, .physical (2/25)⟩ 2] none)
      (OrderItem.mk ⟨"MOUSE01", "Ergo Mouse", round2 1299, .physical (2/25)⟩ 2)
      (List.forall_mem_singleton.mpr (round2_round2 1299))).1⟩

/-- C2: for every non-negative amount, `PercentageDiscount(10.0).apply`
returns `round(amount * 0.9, 2)`, and for every percentage input the applied
percentage discount is never below 0 (the percentage being clamped to
`[0, 100]` at construction). -/
theorem C2_percentage_discount (amount percent : ℚ) (h : 0 ≤ amount) :
    (PercentageDiscount 10).apply amount = round2 (amount * (9/10))
    ∧ 0 ≤ (PercentageDiscount percent).apply amount := by
  constructor
  · show round2 (amount * (1 - max 0 (min 100 10) / 100)) = round2 (amount * (9/10))
    norm_num
  · show 0 ≤ round2 (amount * (1 - max 0 (min 100 percent) / 100))
    refine round2_nonneg (mul_nonneg h ?_)
    have h1 : max 0 (min 100 percent) ≤ 100 :=
      max_le (by norm_num) (min_le_left _ _)
    have h2 : max 0 (min 100 percent) / 100 ≤ 1 := by
      rw [div_le_one (by norm_num : (0:ℚ) < 100)]
      exact h1
    linarith

theorem C2_percentage_discount_witness :
    (0:ℚ) ≤ 3
    ∧ (PercentageDiscount 10).apply 3 = round2 (3 * (9/10))
    ∧ 0 ≤ (PercentageDiscount 55).apply 3 :=
  ⟨by decide,
   (C2_percentage_discount 3 55 (by decide)).1,
   (C2_percentage_discount 3 55 (by decide)).2⟩

/-- C3: `OrderService.compute_total` returns a record with exactly the five
fields `subtotal`, `discounted_subtotal`, `shipping_cost`, `grand_total`,
`shipping_method` (the `ComputeTotalResult` structure); `grand_total` is the
2-decimal rounding of `discounted_subtotal + shipping_cost`,
`discounted_subtotal` is the discount strategy applied to the subtotal, and
`shipping_cost` is the shipping service's cost for the order. -/
theorem C3_compute_total (s : OrderService) (o : Order) :
    (s.compute_total o).grand_total
      = round2 ((s.compute_total o).discounted_subtotal + (s.compute_total o).shipping_cost)
    ∧ (s.compute_total o).discounted_subtotal
      = s.discount_strategy.apply (s.compute_total o).subtotal
    ∧ (s.compute_total o).subtotal = o.subtotal
    ∧ (s.compute_total o).shipping_cost = s.shipping_service.cost o
    ∧ (s.compute_total o).shipping_method = s.shipping_service.label :=
  ⟨rfl, rfl, rfl, rfl, rfl⟩

/-- C10: every successfully constructed `Product` satisfies the invariant
(valid SKU, non-negative 2-decimal price); the constructor rejects invalid
SKUs with a `ValueError`; the `price` setter rejects negative values with a
`ValueError` (returning no updated product, so the price is unchanged); and
the only mutator, `set_price`, preserves the SKU — the SKU has no setter, so
it is read-only after construction. -/
theorem C10_product_invariant :
    (∀ sku name price kind, validate_sku sku = false →
      Product.make sku name price kind
        = .error (.valueError "Invalid SKU format. Must be uppercase alphanumeric (6–12 chars)."))
    ∧ (∀ sku name price kind p, Product.make sku name price kind = .ok p →
        validate_sku p.sku = true ∧ 0 ≤ p.price ∧ round2 p.price = p.price ∧ p.sku = sku)
    ∧ (∀ (p : Product) (v : ℚ), v < 0 →
        p.set_price v = .error (.valueError "Price cannot be negative."))
    ∧ (∀ (p : Product) (v : ℚ) (p' : Product), p.set_price v = .ok p' →
        p'.sku = p.sku ∧ 0 ≤ p'.price ∧ round2 p'.price = p'.price) := by
  refine ⟨?_, ?_, ?_, ?_⟩
  · intro sku name price kind hsku
    unfold Product.make
    simp [hsku]
  · intro sku name price kind p hp
    unfold Product.make at hp
    by_cases hv : validate_sku sku
    · by_cases hneg : price < 0
      · simp [hv, hneg] at hp
      · simp [hv, hneg] at hp
        refine ⟨?_, ?_, ?_, ?_⟩
        · rw [← hp]; exact hv
        · rw [← hp]
          exact round2_nonneg (le_of_not_lt hneg)
        · rw [← hp]
          exact round2_round2 price
        · rw [← hp]
    · simp [hv] at hp
  · intro p v hv
    unfold Product.set_price
    simp [hv]
  · intro p v p' hp
    unfold Product.set_price at hp
    by_cases hneg : v < 0
    · simp [hneg] at hp
    · simp [hneg] at hp
      refine ⟨?_, ?_, ?_⟩
      · rw [← hp]
      · rw [← hp]
        exact round2_nonneg (le_of_not_lt hneg)
      · rw [← hp]
        exact round2_round2 v

theorem C10_product_invariant_witness :
    (Product.make "abc123" "Laptop" 5 (.digital 0)
      = .error (.valueError "Invalid SKU format. Must be uppercase alphanumeric (6–12 chars)."))
    ∧ (validate_sku "ABC123" = true ∧ 0 ≤ round2 (5:ℚ)
        ∧ round2 (round2 (5:ℚ)) = round2 (5:ℚ) ∧ ("ABC123" : String) = "ABC123")
    ∧ ((Product.mk "ABC123" "Laptop" (round2 5) (.digital 0)).set_price (-1)
      = .error (.valueError "Price cannot be negative."))
    ∧ (("ABC123" : String) = "ABC123" ∧ 0 ≤ round2 (3:ℚ)
        ∧ round2 (round2 (3:ℚ)) = round2 (3:ℚ)) :=
  ⟨C10_product_invariant.1 "abc123" "Laptop" 5 (.digital 0) (by decide),
   C10_product_invariant.2.1 "ABC123" "Laptop" 5 (.digital 0)
     (Product.mk "ABC123" "Laptop" (round2 5) (.digital 0)) rfl,
   C10_product_invariant.2.2.1 (Product.mk "ABC123" "Laptop" (round2 5) (.digital 0)) (-1)
     (by decide),
   C10_product_invariant.2.2.2 (Product.mk "ABC123" "Laptop" (round2 5) (.digital 0)) 3
     (Product.mk "ABC123" "Laptop" (round2 3) (.digital 0)) rfl⟩

end Ecom

namespace CSVUtils

/-- Split a character list at every comma — the Python `csv` default-dialect
field splitting for content free of quote characters. -/
def splitCommas : List Char → List (List Char)
  | [] => [[]]
  | c :: rest =>
    match splitCommas rest with
    | [] => [[c]]
    | f :: fs => if c = ',' then [] :: f :: fs else (c :: f) :: fs

/-- One iteration step of `csv.reader`: an empty line yields the empty row
(which `DictReader` skips), any other quote-free line yields its
comma-separated cells. -/
def parseCsvLine (line : String) : List String :=
  if line.data.isEmpty then [] else (splitCommas line.data).map String.mk

/-- One mapping produced by `csv.DictReader`: `dict(zip(fieldnames, row))`,
missing trailing cells filled with the `restval` default `None`, surplus
cells collected under the `restkey` key (`rest = none` when there is no
surplus).  Faithful for distinct field names. -/
structure CsvRow where
  fields : List (String × Option String)
  rest : Option (List String)
  deriving Repr, DecidableEq

def dictRow (fieldnames cells : List String) : CsvRow :=
  { fields := (fieldnames.zip cells).map (fun nc => (nc.1, some nc.2))
      ++ (fieldnames.drop cells.length).map (fun n => (n, (none : Option String))),
    rest := if fieldnames.length < cells.length then some (cells.drop fieldnames.length)
            else none }

/-- Does a `DictReader` mapping contain key `k`? -/
def CsvRow.hasKey (r : CsvRow) (k : String) : Bool :=
  (r.fields.map Prod.fst).contains k

/-- Iterating `csv.DictReader` over the file's lines: the first row gives the
field names, every following non-empty row becomes one mapping. -/
def dictReadLines : List String → List CsvRow
  | [] => []
  | header :: body =>
      ((body.map parseCsvLine).filter (fun r => !r.isEmpty)).map
        (dictRow (parseCsvLine header))

/-- The error `open(file_path)` raises when the file is absent
(`FileNotFoundError`); `CSVUtils.read_data` has no handler, so it
propagates. -/
inductive ReadError : Type
  | fileNotFound
  deriving Repr, DecidableEq

/-- `CSVUtils.read_data`: opens the file (raising if absent) and accumulates
every `DictReader` row.  The file is modelled as `none` (absent) or
`some lines` (its lines, already split, restricted to quote-free content). -/
def read_data : Option (List String) → Except ReadError (List CsvRow)
  | none => .error .fileNotFound
  | some lines => .ok (dictReadLines lines)

/-- The write side of the round-trip property: a delimited file with header
`username,password` followed by one `u,p` line per row. -/
def writeCsv (rows : List (String × String)) : List String :=
  "username,password" :: rows.map (fun r => r.1 ++ "," ++ r.2)

/-- A field value that needs no CSV quoting: no separator, no quote, no
newline. -/
def plainField (s : String) : Prop :=
  ',' ∉ s.data ∧ '"' ∉ s.data ∧ '\n' ∉ s.data

instance (s : String) : Decidable (plainField s) :=
  decidable_of_iff (',' ∉ s.data ∧ '"' ∉ s.data ∧ '\n' ∉ s.data) Iff.rfl

theorem splitCommas_ne_nil (l : List Char) : splitCommas l ≠ [] := by
  cases l with
  | nil => simp [splitCommas]
  | cons c rest =>
    simp only [splitCommas]
    rcases splitCommas rest with _ | ⟨f, fs⟩
    · simp
    · dsimp only
      split <;> simp

theorem splitCommas_no_comma (l : List Char) (h : ',' ∉ l) : splitCommas l = [l] := by
  induction l with
  | nil => rfl
  | cons c rest ih =>
    have hc : c ≠ ',' := fun hc => h (hc ▸ List.mem_cons_self c rest)
    have hr : ',' ∉ rest := fun hr => h (List.mem_cons_of_mem c hr)
    simp only [splitCommas, ih hr]
    simp [hc]

theorem splitCommas_append (u p : List Char) (hu : ',' ∉ u) :
    splitCommas (u ++ ',' :: p) = u :: splitCommas p := by
  induction u with
  | nil =>
    simp only [List.nil_append, splitCommas]
    cases h : splitCommas p with
    | nil => exact absurd h (splitCommas_ne_nil p)
    | cons f fs => simp
  | cons c rest ih =>
    have hc : c ≠ ',' := fun hc => hu (hc ▸ List.mem_cons_self c rest)
    have hr : ',' ∉ rest := fun hr => hu (List.mem_cons_of_mem c hr)
    rw [List.cons_append]
    simp only [splitCommas, ih hr]
    simp [hc]

theorem parseCsvLine_pair (u p : String) (hu : ',' ∉ u.data) (hp : ',' ∉ p.data) :
    parseCsvLine (u ++ "," ++ p) = [u, p] := by
  have hdata : (u ++ "," ++ p).data = u.data ++ ',' :: p.data := by
    simp [String.data_append]
  unfold parseCsvLine
  rw [hdata]
  rw [if_neg (by simp)]
  rw [splitCommas_append u.data p.data hu, splitCommas_no_comma p.data hp]
  rfl

/-- C4: writing a delimited file with header `username,password` followed by
N rows and reading it back with `CSVUtils.read_data` yields exactly N
mappings, each containing both keys `username` and `password`, in the same
relative order as the original rows (the result is literally the row list,
mapped).  Fields are assumed plain (no separator/quote/newline), as CSV
quoting is what the writer would otherwise apply. -/
theorem C4_csv_round_trip (rows : List (String × String))
    (h : ∀ r ∈ rows, plainField r.1 ∧ plainField r.2) :
    read_data (some (writeCsv rows))
      = .ok (rows.map (fun r =>
          CsvRow.mk [("username", some r.1), ("password", some r.2)] none))
    ∧ (dictReadLines (writeCsv rows)).length = rows.length
    ∧ ∀ row ∈ dictReadLines (writeCsv rows),
        row.hasKey "username" = true ∧ row.hasKey "password" = true := by
  have hmain : dictReadLines (writeCsv rows)
      = rows.map (fun r =>
          CsvRow.mk [("username", some r.1), ("password", some r.2)] none) := by
    unfold writeCsv
    simp only [dictReadLines]
    have hhd : parseCsvLine "username,password" = ["username", "password"] := rfl
    rw [hhd, List.map_map]
    have hbody : rows.map (parseCsvLine ∘ fun r => r.1 ++ "," ++ r.2)
        = rows.map (fun r => [r.1, r.2]) :=
      List.map_congr_left fun r hr =>
        parseCsvLine_pair r.1 r.2 (h r hr).1.1 (h r hr).2.1
    rw [hbody]
    rw [List.filter_eq_self.mpr (by
      intro a ha
      obtain ⟨r, _, rfl⟩ := List.mem_map.mp ha
      rfl)]
    rw [List.map_map]
    rfl
  refine ⟨?_, ?_, ?_⟩
  · have hrd : read_data (some (writeCsv rows))
        = Except.ok (dictReadLines (writeCsv rows)) := rfl
    rw [hrd, hmain]
  · rw [hmain, List.length_map]
  · intro row hrow
    rw [hmain] at hrow
    obtain ⟨r, _, rfl⟩ := List.mem_map.mp hrow
    exact ⟨rfl, rfl⟩

theorem C4_csv_round_trip_witness :
    (∀ r ∈ [("alice", "pw1"), ("bob", "pw2")],
        plainField (r : String × String).1 ∧ plainField r.2)
    ∧ read_data (some (writeCsv [("alice", "pw1"), ("bob", "pw2")]))
      = .ok [CsvRow.mk [("username", some "alice"), ("password", some "pw1")] none,
             CsvRow.mk [("username", some "bob"), ("password", some "pw2")] none] :=
  ⟨by decide, (C4_csv_round_trip [("alice", "pw1"), ("bob", "pw2")] (by decide)).1⟩

/-- C5 counterexample: a malformed file (inconsistent column count — a
3-cell row under the 2-field header) does NOT make `read_data` fail: it
returns a complete result, with the surplus cell collected under the
`DictReader` rest key.  This refutes the claim that a malformed file fails
with a `DataFormatError`. -/
theorem C5_malformed_returns_ok :
    read_data (some ["username,password", "a,b,c"])
      = .ok [CsvRow.mk [("username", some "a"), ("password", some "b")] (some ["c"])]
    ∧ EcomUtil.isOkE (read_data (some ["username,password", "a,b,c"])) = true :=
  ⟨rfl, rfl⟩

/-- C5 (amended): an absent file makes `read_data` fail with the (propagated,
unhandled) file-open error; a present file — however malformed its column
counts — never makes it fail: `DictReader` absorbs surplus cells under the
rest key and pads missing fields with `None`. -/
theorem C5_error_behavior :
    read_data none = .error .fileNotFound
    ∧ (∀ lines : List String, EcomUtil.isOkE (read_data (some lines)) = true)
    ∧ (∀ fieldnames cells : List String, fieldnames.length < cells.length →
        (dictRow fieldnames cells).rest = some (cells.drop fieldnames.length))
    ∧ (∀ fieldnames cells : List String, ∀ n ∈ fieldnames.drop cells.length,
        (n, (none : Option String)) ∈ (dictRow fieldnames cells).fields) := by
  refine ⟨rfl, fun _ => rfl, ?_, ?_⟩
  · intro fieldnames cells hlen
    unfold dictRow
    simp [hlen]
  · intro fieldnames cells n hn
    unfold dictRow
    simp only [List.mem_append, List.mem_map]
    exact Or.inr ⟨n, hn, rfl⟩

end CSVUtils

namespace Pages

/-- The Selenium lookup strategies used by the page objects. -/
inductive By : Type
  | id
  | cssSelector
  | xpath
  | name
  deriving Repr, DecidableEq

/-- A page-object locator: a `(strategy, selector)` pair. -/
structure Locator where
  strategy : By
  selector : String
  deriving Repr, DecidableEq

/-- The state of the element a locator currently resolves to: whether it is
present in the DOM, whether it (becomes) visible within the bounded wait,
and whether it (becomes) clickable within the bounded wait.  Selenium's
`find_element` raises `NoSuchElementException` iff not present;
`wait.until(EC.visibility_of_element_located)` /
`wait.until(EC.element_to_be_clickable)` raise `TimeoutException` iff the
flag never becomes true within the 10-second bound. -/
structure ElemState where
  present : Bool
  visible : Bool
  clickable : Bool
  deriving Repr, DecidableEq

/-- The Selenium exceptions the page objects can surface. -/
inductive SelError : Type
  | noSuchElement (loc : Locator)
  | timeout (loc : Locator)
  | titleTimeout (marker : String)
  deriving Repr, DecidableEq

/-- The driver interactions a page action performs, in order. -/
inductive Action : Type
  | navigate (url : String)
  | clear (loc : Locator)
  | sendKeys (loc : Locator) (text : String)
  | click (loc : Locator)
  | clickRowEdit (row : ℕ)
  | scrollIntoView (loc : Locator)
  deriving Repr, DecidableEq

namespace LoginPage

def EMAIL_FIELD : Locator := ⟨.id, "Email"⟩
def PASSWORD_FIELD : Locator := ⟨.id, "Password"⟩
def LOGIN_BUTTON : Locator := ⟨.cssSelector, "button.login-button"⟩
def LOGOUT_BUTTON : Locator := ⟨.xpath, "//a[text()=\x27Logout\x27]"⟩

/-- The locator registry of `LoginPage` (class attributes). -/
def locators : List (String × Locator) :=
  [("EMAIL_FIELD", EMAIL_FIELD), ("PASSWORD_FIELD", PASSWORD_FIELD),
   ("LOGIN_BUTTON", LOGIN_BUTTON), ("LOGOUT_BUTTON", LOGOUT_BUTTON)]

/-- The page as `login` observes it: the element states, and the title the
page settles on after the credentials `(email, password)` are submitted
(`EC.title_contains` polls `driver.title` up to the bounded wait; it
succeeds iff the marker occurs in the settled title). -/
structure LoginEnv where
  elems : Locator → ElemState
  titleAfterLogin : String → String → String

/-- `LoginPage.login`: clear and fill the two credential fields, click the
login button, then block until the title contains `"Dashboard"` or raise on
timeout.  On success the performed actions and the settled title are
returned. -/
def login (env : LoginEnv) (email password : String) :
    Except SelError (List Action × String) :=
  if ¬(env.elems EMAIL_FIELD).visible then .error (.timeout EMAIL_FIELD)
  else if ¬(env.elems EMAIL_FIELD).present then .error (.noSuchElement EMAIL_FIELD)
  else if ¬(env.elems PASSWORD_FIELD).present then .error (.noSuchElement PASSWORD_FIELD)
  else if ¬(env.elems LOGIN_BUTTON).present then .error (.noSuchElement LOGIN_BUTTON)
  else if EcomUtil.containsSub "Dashboard" (env.titleAfterLogin email password) then
    .ok ([.clear EMAIL_FIELD, .sendKeys EMAIL_FIELD email,
          .clear PASSWORD_FIELD, .sendKeys PASSWORD_FIELD password,
          .click LOGIN_BUTTON], env.titleAfterLogin email password)
  else .error (.titleTimeout "Dashboard")

/-- `LoginPage.is_logged_in`: `"Dashboard" in self.driver.title`. -/
def is_logged_in (title : String) : Bool :=
  EcomUtil.containsSub "Dashboard" title

/-- `LoginPage.is_logged_out`: `"Login" in self.driver.title`. -/
def is_logged_out (title : String) : Bool :=
  EcomUtil.containsSub "Login" title

end LoginPage

/-- C7: `login` clears and fills the two credential fields, submits, and
blocks until the title contains the marker `"Dashboard"` or raises on
timeout; whenever it returns without raising, `is_logged_in()` of the
resulting title is true, and for a pair whose resulting title never contains
the marker within the timeout bound, `login` raises. -/
theorem C7_login_dashboard_marker :
    (∀ (env : LoginPage.LoginEnv) (u p : String) (out : List Action × String),
        LoginPage.login env u p = .ok out →
          LoginPage.is_logged_in out.2 = true
          ∧ out.1 = [.clear LoginPage.EMAIL_FIELD, .sendKeys LoginPage.EMAIL_FIELD u,
                     .clear LoginPage.PASSWORD_FIELD, .sendKeys LoginPage.PASSWORD_FIELD p,
                     .click LoginPage.LOGIN_BUTTON]
          ∧ out.2 = env.titleAfterLogin u p)
    ∧ (∀ (env : LoginPage.LoginEnv) (u p : String),
        EcomUtil.containsSub "Dashboard" (env.titleAfterLogin u p) = false →
          EcomUtil.isOkE (LoginPage.login env u p) = false) := by
  constructor
  · intro env u p out hout
    unfold LoginPage.login at hout
    repeat' split at hout
    any_goals exact Except.noConfusion hout
    rename_i hc
    cases hout
    exact ⟨by simpa [LoginPage.is_logged_in] using hc, rfl, rfl⟩
  · intro env u p ht
    unfold LoginPage.login
    repeat' split
    any_goals rfl
    rename_i hc
    simp [ht] at hc

namespace AddCustomerPage

def CUSTOMERS_MENU : Locator :=
  ⟨.xpath, "//a[@href=\x27#\x27]//p[contains(text(),\x27Customers\x27)]"⟩
def CUSTOMERS_ITEM : Locator :=
  ⟨.xpath, "//a[@href=\x27/Admin/Customer/List\x27]//p[contains(text(),\x27Customers\x27)]"⟩
def ADD_NEW_BUTTON : Locator := ⟨.cssSelector, "a.btn-primary"⟩
def GENERAL_TAB : Locator := ⟨.xpath, "//a[@href=\x27#general\x27]"⟩
def EMAIL_FIELD : Locator := ⟨.id, "Email"⟩
def PASSWORD_FIELD : Locator := ⟨.id, "Password"⟩
def FIRSTNAME_FIELD : Locator := ⟨.id, "FirstName"⟩
def LASTNAME_FIELD : Locator := ⟨.id, "LastName"⟩
def GENDER_MALE : Locator := ⟨.id, "Gender_Male"⟩
def GENDER_FEMALE : Locator := ⟨.id, "Gender_Female"⟩
def DOB_FIELD : Locator := ⟨.id, "DateOfBirth"⟩
def COMPANY_FIELD : Locator := ⟨.id, "Company"⟩
def SAVE_BUTTON : Locator := ⟨.name, "save"⟩
def SUCCESS_ALERT : Locator := ⟨.cssSelector, ".alert-success"⟩

/-- The locator registry of `AddCustomerPage` (class attributes). -/
def locators : List (String × Locator) :=
  [("CUSTOMERS_MENU", CUSTOMERS_MENU), ("CUSTOMERS_ITEM", CUSTOMERS_ITEM),
   ("ADD_NEW_BUTTON", ADD_NEW_BUTTON), ("GENERAL_TAB", GENERAL_TAB),
   ("EMAIL_FIELD", EMAIL_FIELD), ("PASSWORD_FIELD", PASSWORD_FIELD),
   ("FIRSTNAME_FIELD", FIRSTNAME_FIELD), ("LASTNAME_FIELD", LASTNAME_FIELD),
   ("GENDER_MALE", GENDER_MALE), ("GENDER_FEMALE", GENDER_FEMALE),
   ("DOB_FIELD", DOB_FIELD), ("COMPANY_FIELD", COMPANY_FIELD),
   ("SAVE_BUTTON", SAVE_BUTTON), ("SUCCESS_ALERT", SUCCESS_ALERT)]

/-- `AddCustomerPage.fill_customer_details` over the page state `env`
(what each locator currently resolves to).  Required fields are filled
unconditionally (the email field behind a visibility wait, the rest behind
`find_element`); the gender radio picked by `gender.lower() == "male"` is
clicked; the two optional fields (date of birth, company) are each filled
only if they become visible within the bounded wait — a `TimeoutException`
there is caught and logged (`print`), not raised; finally the save button is
scrolled into view.  Returns the performed actions and the log lines. -/
def fill_customer_details (env : Locator → ElemState)
    (email password firstname lastname gender company dob : String) :
    Except SelError (List Action × List String) :=
  if ¬(env EMAIL_FIELD).visible then .error (.timeout EMAIL_FIELD)
  else if ¬(env PASSWORD_FIELD).present then .error (.noSuchElement PASSWORD_FIELD)
  else if ¬(env FIRSTNAME_FIELD).present then .error (.noSuchElement FIRSTNAME_FIELD)
  else if ¬(env LASTNAME_FIELD).present then .error (.noSuchElement LASTNAME_FIELD)
  else if ¬(env (if EcomUtil.pyLower gender = "male" then GENDER_MALE else GENDER_FEMALE)).present then
    .error (.noSuchElement (if EcomUtil.pyLower gender = "male" then GENDER_MALE else GENDER_FEMALE))
  else if ¬(env SAVE_BUTTON).present then .error (.noSuchElement SAVE_BUTTON)
  else
    .ok ([.sendKeys EMAIL_FIELD email, .sendKeys PASSWORD_FIELD password,
          .sendKeys FIRSTNAME_FIELD firstname, .sendKeys LASTNAME_FIELD lastname,
          .click (if EcomUtil.pyLower gender = "male" then GENDER_MALE else GENDER_FEMALE)]
         ++ (if (env DOB_FIELD).visible then [Action.sendKeys DOB_FIELD dob] else [])
         ++ (if (env COMPANY_FIELD).visible then [Action.sendKeys COMPANY_FIELD company] else [])
         ++ [.scrollIntoView SAVE_BUTTON],
         (if (env DOB_FIELD).visible then []
          else ["DOB field not visible, skipping DOB input."])
         ++ (if (env COMPANY_FIELD).visible then []
             else ["Company field not visible, skipping Company input."]))

end AddCustomerPage

/-- C6: when all required fields (email behind its visibility wait;
password, first name, last name, the gender radio and the save button
present) are available, `fill_customer_details` never raises, whatever the
optional fields do: each optional field (date of birth, company) is filled
iff it becomes visible within the bounded wait and otherwise skipped with a
logged message — in particular, with the date-of-birth field never visible
the call completes normally, fills the remaining fields and logs the skip
(and the same for the company field). -/
theorem C6_fill_customer_details_optional_skip (env : Locator → ElemState)
    (email password firstname lastname gender company dob : String)
    (h1 : (env AddCustomerPage.EMAIL_FIELD).visible = true)
    (h2 : (env AddCustomerPage.PASSWORD_FIELD).present = true)
    (h3 : (env AddCustomerPage.FIRSTNAME_FIELD).present = true)
    (h4 : (env AddCustomerPage.LASTNAME_FIELD).present = true)
    (h5 : (env AddCustomerPage.GENDER_MALE).present = true)
    (h6 : (env AddCustomerPage.GENDER_FEMALE).present = true)
    (h7 : (env AddCustomerPage.SAVE_BUTTON).present = true) :
    AddCustomerPage.fill_customer_details env email password firstname lastname gender company dob
      = .ok ([.sendKeys AddCustomerPage.EMAIL_FIELD email,
              .sendKeys AddCustomerPage.PASSWORD_FIELD password,
              .sendKeys AddCustomerPage.FIRSTNAME_FIELD firstname,
              .sendKeys AddCustomerPage.LASTNAME_FIELD lastname,
              .click (if EcomUtil.pyLower gender = "male" then AddCustomerPage.GENDER_MALE
                      else AddCustomerPage.GENDER_FEMALE)]
             ++ (if (env AddCustomerPage.DOB_FIELD).visible
                 then [Action.sendKeys AddCustomerPage.DOB_FIELD dob] else [])
             ++ (if (env AddCustomerPage.COMPANY_FIELD).visible
                 then [Action.sendKeys AddCustomerPage.COMPANY_FIELD company] else [])
             ++ [.scrollIntoView AddCustomerPage.SAVE_BUTTON],
             (if (env AddCustomerPage.DOB_FIELD).visible then []
              else ["DOB field not visible, skipping DOB input."])
             ++ (if (env AddCustomerPage.COMPANY_FIELD).visible then []
                 else ["Company field not visible, skipping Company input."])) := by
  unfold AddCustomerPage.fill_customer_details
  by_cases hg : EcomUtil.pyLower gender = "male" <;>
    simp [hg, h1, h2, h3, h4, h5, h6, h7]

/-- A concrete page state for the C6 witness: everything present and
clickable, everything visible except the two optional fields. -/
def sampleCustomerEnv : Locator → ElemState := fun loc =>
  { present := true
    visible := decide (loc ≠ AddCustomerPage.DOB_FIELD ∧ loc ≠ AddCustomerPage.COMPANY_FIELD)
    clickable := true }

theorem C6_fill_customer_details_optional_skip_witness :
    (sampleCustomerEnv AddCustomerPage.EMAIL_FIELD).visible = true
    ∧ (sampleCustomerEnv AddCustomerPage.SAVE_BUTTON).present = true
    ∧ (sampleCustomerEnv AddCustomerPage.DOB_FIELD).visible = false
    ∧ (sampleCustomerEnv AddCustomerPage.COMPANY_FIELD).visible = false
    ∧ AddCustomerPage.fill_customer_details sampleCustomerEnv
        "test123@example.com" "test123" "Nandyy" "Devi" "Female" "TCS" "10/23/2000"
      = .ok ([.sendKeys AddCustomerPage.EMAIL_FIELD "test123@example.com",
              .sendKeys AddCustomerPage.PASSWORD_FIELD "test123",
              .sendKeys AddCustomerPage.FIRSTNAME_FIELD "Nandyy",
              .sendKeys AddCustomerPage.LASTNAME_FIELD "Devi",
              .click AddCustomerPage.GENDER_FEMALE,
              .scrollIntoView AddCustomerPage.SAVE_BUTTON],
             ["DOB field not visible, skipping DOB input.",
              "Company field not visible, skipping Company input."]) :=
  ⟨by decide, by decide, by decide, by decide,
   C6_fill_customer_details_optional_skip sampleCustomerEnv
     "test123@example.com" "test123" "Nandyy" "Devi" "Female" "TCS" "10/23/2000"
     (by decide) (by decide) (by decide) (by decide) (by decide) (by decide) (by decide)⟩

namespace CategoryPage

def catalog_menu : Locator :=
  ⟨.xpath, "//a[@href=\x27#\x27]//p[contains(text(),\x27Catalog\x27)]"⟩
def categories_menu : Locator :=
  ⟨.xpath, "//a[@href=\x27/Admin/Category/List\x27]//p[contains(text(),\x27Categories\x27)]"⟩
def add_new_button : Locator := ⟨.xpath, "//a[@class=\x27btn btn-primary\x27]"⟩
def category_name_field : Locator := ⟨.id, "Name"⟩
def save_button : Locator := ⟨.name, "save"⟩
def success_message : Locator :=
  ⟨.xpath, "//div[@class=\x27alert alert-success alert-dismissable\x27]"⟩

/-- The locator registry of `CategoryPage` (set once in `__init__`). -/
def locators : List (String × Locator) :=
  [("catalog_menu", catalog_menu), ("categories_menu", categories_menu),
   ("add_new_button", add_new_button), ("category_name_field", category_name_field),
   ("save_button", save_button), ("success_message", success_message)]

/-- The dynamic XPath `edit_category` builds by string interpolation:
`//td[text()='{old_name}']/following-sibling::td/a[contains(text(),'Edit')]`. -/
def editRowLocator (old_name : String) : Locator :=
  ⟨.xpath, "//td[text()=\x27" ++ old_name
    ++ "\x27]/following-sibling::td/a[contains(text(),\x27Edit\x27)]"⟩

/-- The index of the first row (in document order) whose cell text equals
`a` — the element `find_element` resolves the dynamic XPath to; `none` when
no row matches (`find_element` then raises `NoSuchElementException`). -/
def firstIdxEq (a : String) : List String → Option ℕ
  | [] => none
  | b :: t => if b = a then some 0 else (firstIdxEq a t).map (· + 1)

/-- The category-list page as `edit_category` observes it: the row cell
texts in document order (each row carrying its sibling Edit link), and the
presence of the name field and save button reached after the Edit click. -/
structure CategoryListEnv where
  rowTexts : List String
  nameFieldPresent : Bool
  saveButtonPresent : Bool

/-- `CategoryPage.edit_category`: find the Edit link of the first row whose
text equals `old_name` (raising if none matches), click it, clear the name
field, type `new_name`, click save. -/
def edit_category (env : CategoryListEnv) (old_name new_name : String) :
    Except SelError (List Action) :=
  match firstIdxEq old_name env.rowTexts with
  | none => .error (.noSuchElement (editRowLocator old_name))
  | some i =>
    if ¬env.nameFieldPresent then .error (.noSuchElement category_name_field)
    else if ¬env.saveButtonPresent then .error (.noSuchElement save_button)
    else .ok [.clickRowEdit i, .clear category_name_field,
              .sendKeys category_name_field new_name, .click save_button]

end CategoryPage

namespace ProductPage

def catalog_menu : Locator :=
  ⟨.xpath, "//a[@href=\x27#\x27]//p[contains(text(),\x27Catalog\x27)]"⟩
def products_menu : Locator :=
  ⟨.xpath, "//a[@href=\x27/Admin/Product/List\x27]//p[contains(text(),\x27Products\x27)]"⟩
def add_new_button : Locator := ⟨.xpath, "//a[@class=\x27btn btn-primary\x27]"⟩
def product_name_field : Locator := ⟨.id, "Name"⟩
def product_price_field : Locator := ⟨.id, "Price"⟩
def save_button : Locator := ⟨.name, "save"⟩
def success_message : Locator :=
  ⟨.xpath, "//div[@class=\x27alert alert-success alert-dismissable\x27]"⟩

/-- The locator registry of `ProductPage` (set once in `__init__`). -/
def locators : List (String × Locator) :=
  [("catalog_menu", catalog_menu), ("products_menu", products_menu),
   ("add_new_button", add_new_button), ("product_name_field", product_name_field),
   ("product_price_field", product_price_field), ("save_button", save_button),
   ("success_message", success_message)]

end ProductPage

/-- Every locator registry entry defined across the four page objects.  The
entries are constants of the embedding (class attributes / set once in
`__init__` in the source), so no entry's `(strategy, selector)` pair is ever
mutated. -/
def allPageLocators : List (String × Locator) :=
  AddCustomerPage.locators ++ LoginPage.locators
    ++ CategoryPage.locators ++ ProductPage.locators

/-- C8 counterexample: the save-button locator (present in three page
objects) uses the `By.NAME` strategy, which is outside
{by-id, by-css-selector, by-xpath} — refuting the claim that every
page-object locator uses one of those three strategies. -/
theorem C8_save_button_uses_by_name :
    ("SAVE_BUTTON", AddCustomerPage.SAVE_BUTTON) ∈ allPageLocators
    ∧ AddCustomerPage.SAVE_BUTTON.strategy = By.name
    ∧ AddCustomerPage.SAVE_BUTTON.strategy ∉ [By.id, By.cssSelector, By.xpath] := by
  refine ⟨?_, rfl, ?_⟩ <;> decide

/-- C8 (amended): every locator registry entry defined in the page objects
uses a lookup strategy drawn from {by-id, by-css-selector, by-xpath,
by-name}; the entries are constants, never mutated at runtime. -/
theorem C8_locator_strategies (e : String × Locator) (h : e ∈ allPageLocators) :
    e.2.strategy ∈ [By.id, By.cssSelector, By.xpath, By.name] := by
  have hall : ∀ x ∈ allPageLocators,
      x.2.strategy ∈ [By.id, By.cssSelector, By.xpath, By.name] := by decide
  exact hall e h

theorem C8_locator_strategies_witness :
    ("EMAIL_FIELD", LoginPage.EMAIL_FIELD) ∈ allPageLocators
    ∧ ("EMAIL_FIELD", LoginPage.EMAIL_FIELD).2.strategy
        ∈ [By.id, By.cssSelector, By.xpath, By.name] :=
  ⟨by decide,
   C8_locator_strategies ("EMAIL_FIELD", LoginPage.EMAIL_FIELD) (by decide)⟩

theorem firstIdxEq_of_filter_length_one (l : List String) (a : String)
    (h : (l.filter (fun x => x = a)).length = 1) :
    ∃ i, CategoryPage.firstIdxEq a l = some i
      ∧ l.get? i = some a
      ∧ ∀ j, l.get? j = some a → j = i := by
  induction l with
  | nil => simp at h
  | cons b t ih =>
    by_cases hb : b = a
    · refine ⟨0, ?_, ?_, ?_⟩
      · simp [CategoryPage.firstIdxEq, hb]
      · simp [hb]
      · intro j hj
        match j with
        | 0 => rfl
        | k + 1 =>
          exfalso
          rw [List.filter_cons_of_pos (by simpa using hb)] at h
          simp only [List.length_cons, Nat.add_eq_zero, add_left_eq_self] at h
          have hmem : a ∈ t := List.get?_mem (by simpa using hj)
          have : (t.filter (fun x => x = a)).length ≠ 0 :=
            List.length_pos.mpr (by
              simp only [ne_eq, List.filter_eq_nil_iff]
              push_neg
              exact ⟨a, hmem, by simp⟩) |>.ne'
          omega
    · rw [List.filter_cons_of_neg (by simpa using hb)] at h
      obtain ⟨i, hfind, hget, huniq⟩ := ih h
      refine ⟨i + 1, ?_, ?_, ?_⟩
      · simp [CategoryPage.firstIdxEq, hb, hfind]
      · simpa using hget
      · intro j hj
        match j with
        | 0 => exact absurd (by simpa using hj) hb
        | k + 1 =>
          have := huniq k (by simpa using hj)
          omega

/-- C9: when exactly one table row's text equals `old_name` (and the name
field and save button are reachable), `edit_category old_name new_name`
succeeds and acts on exactly that row: it clicks that unique row's Edit
action, clears the name field, types the new name and resubmits; and when no
row matches, the row lookup itself raises — a matching row is a
precondition. -/
theorem C9_edit_category_unique_row :
    (∀ (env : CategoryPage.CategoryListEnv) (old_name new_name : String),
      (env.rowTexts.filter (fun x => x = old_name)).length = 1 →
      env.nameFieldPresent = true →
      env.saveButtonPresent = true →
      ∃ i, CategoryPage.edit_category env old_name new_name
            = .ok [.clickRowEdit i, .clear CategoryPage.category_name_field,
                   .sendKeys CategoryPage.category_name_field new_name,
                   .click CategoryPage.save_button]
          ∧ env.rowTexts.get? i = some old_name
          ∧ ∀ j, env.rowTexts.get? j = some old_name → j = i)
    ∧ (∀ (env : CategoryPage.CategoryListEnv) (old_name new_name : String),
        CategoryPage.firstIdxEq old_name env.rowTexts = none →
        CategoryPage.edit_category env old_name new_name
          = .error (.noSuchElement (CategoryPage.editRowLocator old_name))) := by
  constructor
  · intro env old_name new_name h hname hsave
    obtain ⟨i, hfind, hget, huniq⟩ :=
      firstIdxEq_of_filter_length_one env.rowTexts old_name h
    refine ⟨i, ?_, hget, huniq⟩
    unfold CategoryPage.edit_category
    rw [hfind]
    simp [hname, hsave]
  · intro env old_name new_name hnone
    unfold CategoryPage.edit_category
    rw [hnone]

theorem C9_edit_category_unique_row_witness :
    ((CategoryPage.CategoryListEnv.mk ["Computers", "Test Category 123", "Books"]
        true true).rowTexts.filter (fun x => x = "Test Category 123")).length = 1
    ∧ (∃ i, CategoryPage.edit_category
          (CategoryPage.CategoryListEnv.mk ["Computers", "Test Category 123", "Books"]
            true true) "Test Category 123" "Updated Category 123"
          = .ok [.clickRowEdit i, .clear CategoryPage.category_name_field,
                 .sendKeys CategoryPage.category_name_field "Updated Category 123",
                 .click CategoryPage.save_button]
        ∧ (CategoryPage.CategoryListEnv.mk ["Computers", "Test Category 123", "Books"]
            true true).rowTexts.get? i = some "Test Category 123"
        ∧ ∀ j, (CategoryPage.CategoryListEnv.mk ["Computers", "Test Category 123", "Books"]
            true true).rowTexts.get? j = some "Test Category 123" → j = i) :=
  ⟨by decide,
   C9_edit_category_unique_row.1
     (CategoryPage.CategoryListEnv.mk ["Computers", "Test Category 123", "Books"] true true)
     "Test Category 123" "Updated Category 123" (by decide) rfl rfl⟩

end Pages
